import Mathlib

/-!
Shallow embedding of `src/app.py` (tg-mtproto-uploader).

The program downloads a remote URL to a temporary file with retries and
exponential backoff (`download_to_temp_with_retries`), optionally probing
the URL first (`head_check`), and then uploads the file through a messaging
client (`upload`, the POST /upload handler).

Modelling conventions:
- Network and messaging-client behaviour is an explicit environment: the
  outcome of the HEAD probe, the outcome of each GET attempt (indexed by the
  1-based attempt number) and the outcome of the send call are inputs.
- Each run produces a trace of observable events (`Ev`): temporary-file
  creation/removal, calls into the HTTP library, backoff sleeps and
  messaging-client send calls.  The set of temporary files on disk is the
  fold of the trace (`diskFold`), starting from the empty disk.
- Temporary paths are modelled as (attempt number, filename suffix) pairs:
  `tempfile.mkstemp` returns a fresh path per attempt.
- `os.remove` wrapped in `try/except: pass` is modelled as an unconditional
  removal that always succeeds (OS-level removal failures are outside the
  embedding).
- Byte strings are `List Nat`; seconds of sleep are `Nat` (the backoff
  values `1.0 * 2 ** (n-1)` are the integers 1, 2, 4, 8).
-/

instance {ε α : Type} [DecidableEq ε] [DecidableEq α] : DecidableEq (Except ε α) := fun a b =>
  match a, b with
  | .ok x, .ok y => if h : x = y then .isTrue (by rw [h]) else .isFalse (by simp [h])
  | .error x, .error y => if h : x = y then .isTrue (by rw [h]) else .isFalse (by simp [h])
  | .ok _, .error _ => .isFalse (by simp)
  | .error _, .ok _ => .isFalse (by simp)

/-- Python `pat in s` on characters: does `s` start with `pat`? -/
def listStarts : List Char → List Char → Bool
  | [], _ => true
  | _ :: _, [] => false
  | p :: ps, c :: cs => (p == c) && listStarts ps cs

/-- Python `pat in s`: does `s` contain `pat` as a contiguous substring? -/
def listHasSub (pat : List Char) : List Char → Bool
  | [] => pat.isEmpty
  | c :: cs => listStarts pat (c :: cs) || listHasSub pat cs

/-- `strHasSub s pat` models Python `pat in s`. -/
def strHasSub (s pat : String) : Bool := listHasSub pat.data s.data

/-- `strStarts s pat` models Python `s.startswith(pat)`. -/
def strStarts (s pat : String) : Bool := listStarts pat.data s.data

/-- Whitespace characters stripped by Python `str.strip()` (ASCII range). -/
def isSpaceChar (c : Char) : Bool :=
  c == ' ' || c == '\t' || c == '\n' || c == '\r' || c == '\x0b' || c == '\x0c'

/-- Python `s.strip()` on characters. -/
def trimChars (cs : List Char) : List Char :=
  ((cs.dropWhile isSpaceChar).reverse.dropWhile isSpaceChar).reverse

/-- Python `s.strip()` (ASCII whitespace). -/
def trimStr (s : String) : String := String.mk (trimChars s.data)

/-- Python `s.lower()` (ASCII case mapping). -/
def toLowerStr (s : String) : String := String.mk (s.data.map Char.toLower)

/-- Python `s.upper()` (ASCII case mapping). -/
def toUpperStr (s : String) : String := String.mk (s.data.map Char.toUpper)

/-- Source line 112/127: `any(x in ct for x in ("video", "image",
"application/octet-stream", "binary"))`. -/
def ctMatchesMedia (ct : String) : Bool :=
  strHasSub ct "video" || strHasSub ct "image" ||
    strHasSub ct "application/octet-stream" || strHasSub ct "binary"

/-- Python `s[1:-1]`. -/
def stripInner (cs : List Char) : List Char := (cs.drop 1).dropLast

/-- `s.startswith(q) and s.endswith(q)` for a one-character quote `q`. -/
def isQuotedBy (q : Char) (cs : List Char) : Bool :=
  match cs.head?, cs.getLast? with
  | some a, some b => (a == q) && (b == q)
  | _, _ => false

/-- The two `ParseMode` enum values the handler can select
(`pyrogram.enums.ParseMode`). -/
inductive ParseMode where
  | HTML
  | MARKDOWN
deriving DecidableEq

/-- Source lines 68-71 of `to_parse_mode_enum`: strip whitespace, strip one
layer of matching surrounding quotes (then strip again), and uppercase. -/
def parseModeNormalize (m : String) : String :=
  let s := trimStr m
  let cs := s.data
  let cs2 :=
    if isQuotedBy '\"' cs || isQuotedBy '\'' cs then
      (trimStr (String.mk (stripInner cs))).data
    else cs
  toUpperStr (String.mk cs2)

/-- Source lines 65-76: `to_parse_mode_enum`.  `if not mode_str` treats both
`None` and the empty string as "no mode". -/
def to_parse_mode_enum (modeStr : Option String) : Option ParseMode :=
  match modeStr with
  | none => none
  | some m =>
    if m = "" then none
    else
      let sUp := parseModeNormalize m
      if sUp = "HTML" then some ParseMode.HTML
      else if strStarts sUp "MARKDOWN" then some ParseMode.MARKDOWN
      else none

/-- Source line 34: `DOWNLOAD_MAX_RETRIES = 5`. -/
def DOWNLOAD_MAX_RETRIES : Nat := 5

/-- Source line 35: `DOWNLOAD_BACKOFF_BASE = 1.0` (an integer number of
seconds in this embedding). -/
def DOWNLOAD_BACKOFF_BASE : Nat := 1

/-- Outcome of the HEAD request inside `head_check`: either the request
raises (network error), or it returns a status and headers. -/
inductive HeadOutcome where
  | raise (msg : String)
  | resp (status : Nat) (headers : List (String × String))

/-- Environment for `head_check`: the HEAD outcome and, when the fallback
small GET of line 90 is issued, its outcome (error message or headers). -/
structure ProbeEnv where
  headOut : HeadOutcome
  fallbackGet : Except String (List (String × String))

/-- Source lines 79-95: `head_check`.  A HEAD status `>= 400` falls back to a
small GET whose headers are returned; any exception from either request is
re-raised as `RuntimeError("HEAD/quick-check failed: ...")`. -/
def head_check (env : ProbeEnv) : Except String (List (String × String)) :=
  match env.headOut with
  | .raise m => .error ("HEAD/quick-check failed: " ++ m)
  | .resp status hs =>
    if 400 ≤ status then
      match env.fallbackGet with
      | .error m => .error ("HEAD/quick-check failed: " ++ m)
      | .ok hs2 => .ok hs2
    else .ok hs

/-- Source lines 105-109 of `download_to_temp_with_retries`: the probe call
is wrapped in `try/except` and any probe failure degrades to `headers = {}`. -/
def pipelineHeaders (env : ProbeEnv) : List (String × String) :=
  match head_check env with
  | .ok hs => hs
  | .error _ => []

/-- Python `headers.get(k, "")` on an association list. -/
def headerGet (hs : List (String × String)) (k : String) : String :=
  match List.lookup k hs with
  | some v => v
  | none => ""

/-- Outcome of one GET attempt (source line 123, `h.stream("GET", url)`):
either the request/stream raises, or a response arrives with a status, a
`content-type` header value (`""` when the header is absent, matching
`r.headers.get("content-type", "")`) and a body. -/
inductive GetResult where
  | netError (msg : String)
  | resp (status : Nat) (contentType : String) (body : List Nat)
deriving DecidableEq

/-- The exception raised inside the `try` block of one download attempt. -/
inductive AttemptError where
  | netError (msg : String)
  | httpStatus (status : Nat)
  | contentMismatch (contentType : String) (snippetHead : List Nat) (bytesRead : Nat)
deriving DecidableEq

/-- Terminal errors of `download_to_temp_with_retries` (source lines 152 and
158). -/
inductive FetchError where
  | downloadFailedAfterRetries (last : AttemptError)
  | unreachableDownloadError
deriving DecidableEq

/-- A temporary file path: `tempfile.mkstemp(suffix=suffix)` yields a fresh
path per attempt, identified here by the attempt number and the suffix. -/
abbrev TempPath := Nat × String

/-- Observable events of a run: temporary-file creation/removal, a call into
the HTTP library issuing the GET, a backoff sleep (seconds), and the
messaging-client send calls of the upload handler. -/
inductive Ev where
  | createTemp (p : TempPath)
  | getCall
  | removeTemp (p : TempPath)
  | sleep (seconds : Nat)
  | sendVideoCall (p : TempPath)
  | sendPhotoCall (p : TempPath)
deriving DecidableEq

/-- Effect of one event on the set of temporary files on disk. -/
def applyEv (disk : List TempPath) : Ev → List TempPath
  | .createTemp p => p :: disk
  | .removeTemp p => disk.erase p
  | _ => disk

/-- Temporary files on disk after running a trace from a given disk. -/
def diskFold (disk : List TempPath) (evs : List Ev) : List TempPath :=
  evs.foldl applyEv disk

/-- Checks that after every single event of the trace at most one temporary
file is on disk. -/
def diskRun (disk : List TempPath) : List Ev → Bool
  | [] => true
  | e :: es =>
    let d2 := applyEv disk e
    decide (d2.length ≤ 1) && diskRun d2 es

/-- Source lines 123-138: the body of the `try` block of one attempt, given
the GET outcome.  `r.raise_for_status()` raises for statuses `>= 400`; a
present `content-type` matching none of the media markers raises the
"wrong type of the web page content" error after `await r.aread()` has read
the remaining response body in full (`bytesRead = body.length`), of which
only the first 512 bytes enter the diagnostic (`snippet[:512]`).  Otherwise
the body is streamed to the file and the attempt succeeds. -/
def tryStream : GetResult → Except AttemptError Unit
  | .netError m => .error (.netError m)
  | .resp status ct body =>
    if 400 ≤ status then .error (.httpStatus status)
    else if ct ≠ "" ∧ ctMatchesMedia ct = false then
      .error (.contentMismatch ct (body.take 512) body.length)
    else .ok ()

/-- Source lines 117-158: the retry loop of `download_to_temp_with_retries`,
run over the list of attempt numbers `[1, ..., DOWNLOAD_MAX_RETRIES]`
(`for attempt in range(1, DOWNLOAD_MAX_RETRIES + 1)`).  Per attempt:
`mkstemp`, the GET; on success the path is returned (the file stays); on an
exception the file is removed, and the loop either raises
`download_failed_after_retries` (last attempt) or sleeps
`DOWNLOAD_BACKOFF_BASE * 2 ** (attempt - 1)` and retries.  Falling off the
loop would raise `unreachable_download_error` (source line 158). -/
def downloadLoop (get : Nat → GetResult) (suffix : String) :
    List Nat → List Ev × Except FetchError TempPath
  | [] => ([], .error .unreachableDownloadError)
  | attempt :: rest =>
    let path : TempPath := (attempt, suffix)
    match tryStream (get attempt) with
    | .ok _ => ([.createTemp path, .getCall], .ok path)
    | .error e =>
      if attempt = DOWNLOAD_MAX_RETRIES then
        ([.createTemp path, .getCall, .removeTemp path],
          .error (.downloadFailedAfterRetries e))
      else
        let rest2 := downloadLoop get suffix rest
        (.createTemp path :: .getCall :: .removeTemp path ::
          .sleep (DOWNLOAD_BACKOFF_BASE * 2 ^ (attempt - 1)) :: rest2.1, rest2.2)

/-- Environment and arguments of one `download_to_temp_with_retries` call:
the URL and suffix arguments, the probe environment, and the outcome of the
GET of each attempt (1-based). -/
structure FetchSpec where
  url : String
  suffix : String
  probe : ProbeEnv
  get : Nat → GetResult

/-- Source lines 98-158: `download_to_temp_with_retries`.  The probe result
is advisory only: the `content-type` drawn from it feeds a warn-only branch
whose body is `pass` (source lines 112-115), so it has no effect on the
run.  Note that the source contains no URL-scheme validation. -/
def download_to_temp_with_retries (spec : FetchSpec) :
    List Ev × Except FetchError TempPath :=
  let headers := pipelineHeaders spec.probe
  let _ct := headerGet headers "content-type"
  downloadLoop spec.get spec.suffix (List.range' 1 DOWNLOAD_MAX_RETRIES)

/-- The body of POST /upload, as parsed by the `UploadRequest` pydantic
model (source lines 42-47); an absent `kind` field has already been given
the pydantic default `"video"`. -/
structure UploadRequest where
  chat_id : String
  file_url : String
  caption : Option String
  parse_mode : Option String
  kind : String

/-- Outcome of the messaging-client send call. -/
inductive SendOutcome where
  | sent (messageId : Nat)
  | sendError (msg : String)
deriving DecidableEq

/-- Environment for the upload handler's send step: the outcome of
`client.send_video` and of `client.send_photo`. -/
structure MessagingEnv where
  sendVideoOut : SendOutcome
  sendPhotoOut : SendOutcome

/-- The HTTP response of POST /upload: either the success payload
`{"ok": True, "message_id": m.id}` or an `HTTPException` with a status code
and detail string. -/
inductive UploadResp where
  | okMessage (message_id : Nat)
  | httpError (statusCode : Nat) (detail : String)
deriving DecidableEq

/-- Source line 175: `kind = (req.kind or "video").lower()`; the empty
string is falsy in Python, so it also defaults to `"video"`. -/
def kindOf (req : UploadRequest) : String :=
  toLowerStr (if req.kind = "" then "video" else req.kind)

/-- Source line 176: `suffix = ".mp4" if kind == "video" else ".jpg"`. -/
def suffixOf (req : UploadRequest) : String :=
  if kindOf req = "video" then ".mp4" else ".jpg"

/-- Bytes decoded with `.decode(errors="ignore")`, restricted to ASCII in
this embedding (multi-byte sequences are beyond it). -/
def asciiDecode (bs : List Nat) : String :=
  String.mk (bs.filterMap (fun b => if b < 128 then some (Char.ofNat b) else none))

/-- The `str(e)` of an attempt's exception.  For network errors it is the
environment-supplied message; for status errors an abstraction of the httpx
message; for the content mismatch the f-string of source line 132. -/
def attemptErrorMsg : AttemptError → String
  | .netError m => m
  | .httpStatus status => "HTTP status error " ++ toString status
  | .contentMismatch ct snip _ =>
    "Bad Request: wrong type of the web page content (content-type=" ++ ct
      ++ ") snippet=" ++ asciiDecode snip

/-- The `str(e)` of a terminal download error (source lines 152 and 158). -/
def fetchErrorMsg : FetchError → String
  | .downloadFailedAfterRetries last =>
    "download_failed_after_retries: " ++ attemptErrorMsg last
  | .unreachableDownloadError => "unreachable_download_error"

/-- The `FetchSpec` the upload handler passes to
`download_to_temp_with_retries(req.file_url, suffix=suffix)`. -/
def fetchSpecOf (req : UploadRequest) (probe : ProbeEnv) (get : Nat → GetResult) :
    FetchSpec :=
  { url := req.file_url, suffix := suffixOf req, probe := probe, get := get }

/-- Which send call the handler issues (source lines 188-202):
`send_video` when `kind == "video"`, otherwise `send_photo`. -/
def sendCallEv (req : UploadRequest) (p : TempPath) : Ev :=
  if kindOf req = "video" then .sendVideoCall p else .sendPhotoCall p

/-- The outcome of the send call the handler issues. -/
def sendOutcomeFor (req : UploadRequest) (menv : MessagingEnv) : SendOutcome :=
  if kindOf req = "video" then menv.sendVideoOut else menv.sendPhotoOut

/-- Source lines 161-214: the POST /upload handler.  The download trace is
extended by the send call and the `finally: os.remove(path)` of source
lines 203-207; any exception is converted to
`HTTPException(status_code=500, detail=f"uploader_error: ...")` by the
outer handler (source line 214).  No branch produces any other status. -/
def upload (req : UploadRequest) (probe : ProbeEnv) (get : Nat → GetResult)
    (menv : MessagingEnv) : List Ev × UploadResp :=
  let _pm := to_parse_mode_enum req.parse_mode
  match download_to_temp_with_retries (fetchSpecOf req probe get) with
  | (evs, .error e) =>
    (evs, .httpError 500 ("uploader_error: " ++ fetchErrorMsg e))
  | (evs, .ok path) =>
    match sendOutcomeFor req menv with
    | .sent mid => (evs ++ [sendCallEv req path, .removeTemp path], .okMessage mid)
    | .sendError m =>
      (evs ++ [sendCallEv req path, .removeTemp path],
        .httpError 500 ("uploader_error: " ++ m))

/-- Modelled from the spec: the URL-scheme validation the spec describes
("only `http://` and `https://` (case-insensitive) are accepted").  Stated
for comparison only — the source contains no such check. -/
def specSchemeAccepted (url : String) : Bool :=
  strStarts (toLowerStr url) "http://" || strStarts (toLowerStr url) "https://"

/-- Modelled from the spec, claim C8: the normalization the claim describes,
which recognizes exactly `HTML` and `Markdown` (case-insensitive, after
stripping quotes and whitespace) and maps every other tag to none. -/
def claimParseModeMap (modeStr : Option String) : Option ParseMode :=
  match modeStr with
  | none => none
  | some s =>
    if s = "" then none
    else if parseModeNormalize s = "HTML" then some ParseMode.HTML
    else if parseModeNormalize s = "MARKDOWN" then some ParseMode.MARKDOWN
    else none

/-- Modelled from the spec, claim C9: only a kind equal to `"video"`
case-insensitively selects the video path. -/
def claimSelectsVideo (kind : String) : Bool := toLowerStr kind == "video"

/-- True exactly on the event that issues the GET. -/
def isGetCallEv : Ev → Bool
  | .getCall => true
  | _ => false

/-- The seconds of the backoff sleeps of a trace, in order. -/
def sleepSeconds (evs : List Ev) : List Nat :=
  evs.filterMap (fun e => match e with | .sleep s => some s | _ => none)

/-- The trace of a run in which all five attempts fail. -/
def allFailTrace (suffix : String) : List Ev :=
  [.createTemp (1, suffix), .getCall, .removeTemp (1, suffix), .sleep 1,
   .createTemp (2, suffix), .getCall, .removeTemp (2, suffix), .sleep 2,
   .createTemp (3, suffix), .getCall, .removeTemp (3, suffix), .sleep 4,
   .createTemp (4, suffix), .getCall, .removeTemp (4, suffix), .sleep 8,
   .createTemp (5, suffix), .getCall, .removeTemp (5, suffix)]

/-! ### Concrete inputs used by witnesses and counterexamples -/

/-- The client-side error httpx raises for a URL scheme it does not support
(no socket is opened; the exception surfaces inside the request call). -/
def protoErrMsg : String := "Request URL has an unsupported protocol: ftp"

/-- The probe environment of a non-http(s) URL: the HEAD call raises
client-side. -/
def probeFtp : ProbeEnv :=
  { headOut := .raise protoErrMsg, fallbackGet := .error protoErrMsg }

/-- The GET environment of a non-http(s) URL: every attempt raises the same
unsupported-protocol error client-side. -/
def getFtp : Nat → GetResult := fun _ => .netError protoErrMsg

/-- A fetch of a `ftp://` URL: what httpx deterministically does there. -/
def ftpSpec : FetchSpec :=
  { url := "ftp://files.example.com/clip.mp4", suffix := ".mp4",
    probe := probeFtp, get := getFtp }

/-- A fetch whose GET returns a transient 503 on every attempt. -/
def transientSpec : FetchSpec :=
  { url := "https://files.example.com/clip.mp4", suffix := ".mp4",
    probe := { headOut := .resp 200 [("content-type", "video/mp4")],
               fallbackGet := .error "unused" },
    get := fun _ => .resp 503 "" [] }

/-- A fetch whose probe times out but whose GET succeeds on attempt 1. -/
def probeFailSpec : FetchSpec :=
  { url := "https://cdn.example.com/clip.mp4", suffix := ".mp4",
    probe := { headOut := .raise "timeout", fallbackGet := .error "timeout" },
    get := fun _ => .resp 200 "video/mp4" [7] }

/-- A healthy probe environment. -/
def okProbe : ProbeEnv :=
  { headOut := .resp 200 [("content-type", "video/mp4")],
    fallbackGet := .error "unused" }

/-- A GET environment that succeeds on every attempt. -/
def okGet : Nat → GetResult := fun _ => .resp 200 "video/mp4" [7, 7, 7]

/-- An upload request for a video. -/
def reqVideo : UploadRequest :=
  { chat_id := "@demo", file_url := "https://files.example.com/clip.mp4",
    caption := none, parse_mode := none, kind := "video" }

/-- An upload request with a `ftp://` URL. -/
def reqFtp : UploadRequest :=
  { chat_id := "@demo", file_url := "ftp://files.example.com/clip.mp4",
    caption := none, parse_mode := none, kind := "video" }

/-- An upload request whose `kind` is the empty string. -/
def req9 : UploadRequest :=
  { chat_id := "@demo", file_url := "https://files.example.com/clip.bin",
    caption := none, parse_mode := none, kind := "" }

/-- A messaging client whose send calls succeed. -/
def menvSent : MessagingEnv :=
  { sendVideoOut := .sent 42, sendPhotoOut := .sent 43 }

/-- A messaging client whose send calls raise. -/
def menvFail : MessagingEnv :=
  { sendVideoOut := .sendError "FLOOD_WAIT", sendPhotoOut := .sendError "FLOOD_WAIT" }

/-- A 600-byte HTML error page body. -/
def htmlBody : List Nat := List.replicate 600 60

/-! ### Helper lemmas about the retry loop -/

theorem download_eq (spec : FetchSpec) :
    download_to_temp_with_retries spec =
      downloadLoop spec.get spec.suffix [1, 2, 3, 4, 5] := rfl

theorem downloadLoop_cons_ok (get : Nat → GetResult) (suffix : String)
    (a : Nat) (rest : List Nat) (hok : tryStream (get a) = .ok ()) :
    downloadLoop get suffix (a :: rest) =
      ([.createTemp (a, suffix), .getCall], .ok (a, suffix)) := by
  simp [downloadLoop, hok]

theorem downloadLoop_last_error (get : Nat → GetResult) (suffix : String)
    (rest : List Nat) (e : AttemptError)
    (he : tryStream (get DOWNLOAD_MAX_RETRIES) = .error e) :
    downloadLoop get suffix (DOWNLOAD_MAX_RETRIES :: rest) =
      ([.createTemp (DOWNLOAD_MAX_RETRIES, suffix), .getCall,
        .removeTemp (DOWNLOAD_MAX_RETRIES, suffix)],
        .error (.downloadFailedAfterRetries e)) := by
  simp [downloadLoop, he]

theorem downloadLoop_cons_error (get : Nat → GetResult) (suffix : String)
    (a : Nat) (rest : List Nat) (e : AttemptError)
    (ha : a ≠ DOWNLOAD_MAX_RETRIES) (he : tryStream (get a) = .error e) :
    downloadLoop get suffix (a :: rest) =
      (.createTemp (a, suffix) :: .getCall :: .removeTemp (a, suffix) ::
        .sleep (DOWNLOAD_BACKOFF_BASE * 2 ^ (a - 1)) ::
          (downloadLoop get suffix rest).1,
        (downloadLoop get suffix rest).2) := by
  simp [downloadLoop, he, ha]

theorem downloadLoop_allFail (get : Nat → GetResult) (suffix : String)
    (errOf : Nat → AttemptError)
    (h : ∀ n, 1 ≤ n → n ≤ 5 → tryStream (get n) = .error (errOf n)) :
    downloadLoop get suffix [1, 2, 3, 4, 5] =
      (allFailTrace suffix, .error (.downloadFailedAfterRetries (errOf 5))) := by
  have h1 := h 1 (by decide) (by decide)
  have h2 := h 2 (by decide) (by decide)
  have h3 := h 3 (by decide) (by decide)
  have h4 := h 4 (by decide) (by decide)
  have h5 := h 5 (by decide) (by decide)
  rw [downloadLoop_cons_error get suffix 1 _ _ (by decide) h1,
    downloadLoop_cons_error get suffix 2 _ _ (by decide) h2,
    downloadLoop_cons_error get suffix 3 _ _ (by decide) h3,
    downloadLoop_cons_error get suffix 4 _ _ (by decide) h4]
  rw [show (5 : Nat) = DOWNLOAD_MAX_RETRIES from rfl] at h5 ⊢
  rw [downloadLoop_last_error get suffix _ _ h5]
  simp [allFailTrace, DOWNLOAD_BACKOFF_BASE, DOWNLOAD_MAX_RETRIES]

theorem downloadLoop_disk (get : Nat → GetResult) (suffix : String) :
    ∀ l : List Nat,
      diskRun [] (downloadLoop get suffix l).1 = true
      ∧ (∀ e, (downloadLoop get suffix l).2 = .error e →
          diskFold [] (downloadLoop get suffix l).1 = [])
      ∧ (∀ p, (downloadLoop get suffix l).2 = .ok p →
          diskFold [] (downloadLoop get suffix l).1 = [p])
  | [] => by
    refine ⟨rfl, fun e _ => rfl, fun p hp => ?_⟩
    simp [downloadLoop] at hp
  | a :: rest => by
    cases htry : tryStream (get a) with
    | ok u =>
      cases u
      rw [downloadLoop_cons_ok get suffix a rest htry]
      refine ⟨rfl, fun e he => by simp at he, fun p hp => ?_⟩
      simp only [Except.ok.injEq] at hp
      simp [diskFold, applyEv, ← hp]
    | error e =>
      by_cases ha : a = DOWNLOAD_MAX_RETRIES
      · subst ha
        rw [downloadLoop_last_error get suffix rest e htry]
        refine ⟨?_, fun e2 _ => ?_, fun p hp => by simp at hp⟩
        · simp [diskRun, applyEv, List.erase_cons_head]
        · simp [diskFold, applyEv, List.erase_cons_head]
      · have ih := downloadLoop_disk get suffix rest
        rw [downloadLoop_cons_error get suffix a rest e ha htry]
        refine ⟨?_, fun e2 he2 => ?_, fun p hp => ?_⟩
        · simp only [diskRun, applyEv, List.erase_cons_head]
          simpa using ih.1
        · simp only at he2
          simp only [diskFold, List.foldl_cons, applyEv, List.erase_cons_head]
          exact ih.2.1 e2 he2
        · simp only at hp
          simp only [diskFold, List.foldl_cons, applyEv, List.erase_cons_head]
          exact ih.2.2 p hp

theorem downloadLoop_ends (get : Nat → GetResult) (suffix : String) :
    ∀ l : List Nat,
      (downloadLoop get suffix (l ++ [DOWNLOAD_MAX_RETRIES])).2 ≠
        .error .unreachableDownloadError
  | [] => by
    cases htry : tryStream (get DOWNLOAD_MAX_RETRIES) with
    | ok u =>
      cases u
      rw [List.nil_append, downloadLoop_cons_ok get suffix _ _ htry]
      simp
    | error e =>
      rw [List.nil_append, downloadLoop_last_error get suffix _ _ htry]
      simp
  | a :: rest => by
    cases htry : tryStream (get a) with
    | ok u =>
      cases u
      rw [List.cons_append, downloadLoop_cons_ok get suffix _ _ htry]
      simp
    | error e =>
      by_cases ha : a = DOWNLOAD_MAX_RETRIES
      · subst ha
        rw [List.cons_append, downloadLoop_last_error get suffix _ e htry]
        simp
      · rw [List.cons_append, downloadLoop_cons_error get suffix a _ e ha htry]
        exact downloadLoop_ends get suffix rest

theorem applyEv_send (d : List TempPath) (req : UploadRequest) (p : TempPath) :
    applyEv d (sendCallEv req p) = d := by
  unfold sendCallEv
  split <;> rfl

theorem upload_trace_ok (req : UploadRequest) (probe : ProbeEnv)
    (get : Nat → GetResult) (menv : MessagingEnv) (path : TempPath)
    (h : (download_to_temp_with_retries (fetchSpecOf req probe get)).2 = .ok path) :
    (upload req probe get menv).1 =
      (download_to_temp_with_retries (fetchSpecOf req probe get)).1
        ++ [sendCallEv req path, .removeTemp path] := by
  cases hdl : download_to_temp_with_retries (fetchSpecOf req probe get) with
  | mk evs r =>
    rw [hdl] at h
    simp only at h
    subst h
    cases hout : sendOutcomeFor req menv <;> simp [upload, hdl, hout]

theorem upload_disk_ok (req : UploadRequest) (probe : ProbeEnv)
    (get : Nat → GetResult) (menv : MessagingEnv) (path : TempPath)
    (h : (download_to_temp_with_retries (fetchSpecOf req probe get)).2 = .ok path) :
    diskFold [] (upload req probe get menv).1 = [] := by
  rw [upload_trace_ok req probe get menv path h]
  have hm := downloadLoop_disk (fetchSpecOf req probe get).get
    (fetchSpecOf req probe get).suffix [1, 2, 3, 4, 5]
  rw [download_eq] at h
  have hd : diskFold []
      (downloadLoop (fetchSpecOf req probe get).get
        (fetchSpecOf req probe get).suffix [1, 2, 3, 4, 5]).1 = [path] :=
    hm.2.2 path h
  rw [download_eq]
  simp only [diskFold, List.foldl_append] at hd ⊢
  rw [hd]
  show applyEv (applyEv [path] (sendCallEv req path)) (.removeTemp path) = []
  rw [applyEv_send]
  simp [applyEv, List.erase_cons_head]

/-! ### Claim theorems -/

/-- C1, counterexample.  For the `ftp://` URL (scheme accepted by neither
`http://` nor `https://`), the fetch does not fail immediately with a
validation error: it issues five GET calls, sleeps 1, 2, 4 and 8 seconds
between them, and ends with `download_failed_after_retries` — so it
performs calls into the HTTP library and consumes all retry attempts. -/
theorem c1_counterexample :
    specSchemeAccepted ftpSpec.url = false
    ∧ download_to_temp_with_retries ftpSpec =
        (allFailTrace ".mp4",
          .error (.downloadFailedAfterRetries (.netError protoErrMsg)))
    ∧ ((allFailTrace ".mp4").filter isGetCallEv).length = 5
    ∧ sleepSeconds (allFailTrace ".mp4") = [1, 2, 4, 8] :=
  ⟨by decide, rfl, rfl, rfl⟩

/-- C1 (amended): the source performs no URL-scheme validation.  For a URL
whose scheme is not http/https, every attempt's GET raises the
unsupported-protocol error client-side; `download_to_temp_with_retries`
consumes all 5 attempts (5 calls into the HTTP library), sleeps 1, 2, 4, 8
seconds between them, and raises `download_failed_after_retries` wrapping
that error — there is no `ValidationError` and no immediate failure. -/
theorem c1_no_scheme_validation (spec : FetchSpec) (msg : String)
    (_hscheme : specSchemeAccepted spec.url = false)
    (hget : ∀ n, 1 ≤ n → n ≤ 5 → spec.get n = .netError msg) :
    download_to_temp_with_retries spec =
      (allFailTrace spec.suffix,
        .error (.downloadFailedAfterRetries (.netError msg)))
    ∧ ((allFailTrace spec.suffix).filter isGetCallEv).length = 5
    ∧ sleepSeconds (allFailTrace spec.suffix) = [1, 2, 4, 8] := by
  refine ⟨?_, rfl, rfl⟩
  rw [download_eq]
  exact downloadLoop_allFail spec.get spec.suffix (fun _ => .netError msg)
    (fun n h1 h2 => by rw [hget n h1 h2]; rfl)

/-- C1, witness: the amended theorem applied to the `ftp://` fetch. -/
theorem c1_witness :
    download_to_temp_with_retries ftpSpec =
      (allFailTrace ".mp4",
        .error (.downloadFailedAfterRetries (.netError protoErrMsg)))
    ∧ ((allFailTrace ".mp4").filter isGetCallEv).length = 5
    ∧ sleepSeconds (allFailTrace ".mp4") = [1, 2, 4, 8] :=
  c1_no_scheme_validation ftpSpec protoErrMsg (by decide) (fun _ _ _ => rfl)

/-- C2 (confirmed): when every attempt's GET ends in an error, the fetch
performs exactly 5 attempts (5 GET calls), sleeps
`DOWNLOAD_BACKOFF_BASE * 2 ^ (n-1)` = 1, 2, 4, 8 seconds between attempts,
does not sleep after the 5th (the trace ends with the removal of attempt
5's temporary file), and raises `download_failed_after_retries` wrapping
the last attempt's error. -/
theorem c2_retry_schedule (spec : FetchSpec) (errOf : Nat → AttemptError)
    (h : ∀ n, 1 ≤ n → n ≤ 5 → tryStream (spec.get n) = .error (errOf n)) :
    download_to_temp_with_retries spec =
      (allFailTrace spec.suffix,
        .error (.downloadFailedAfterRetries (errOf 5)))
    ∧ ((allFailTrace spec.suffix).filter isGetCallEv).length = 5
    ∧ sleepSeconds (allFailTrace spec.suffix) = [1, 2, 4, 8]
    ∧ (allFailTrace spec.suffix).getLast? =
        some (.removeTemp (5, spec.suffix)) := by
  refine ⟨?_, rfl, rfl, rfl⟩
  rw [download_eq]
  exact downloadLoop_allFail spec.get spec.suffix errOf h

/-- C2, witness: the theorem applied to a fetch whose GET returns a 503 on
every attempt. -/
theorem c2_witness :
    download_to_temp_with_retries transientSpec =
      (allFailTrace ".mp4",
        .error (.downloadFailedAfterRetries (.httpStatus 503)))
    ∧ ((allFailTrace ".mp4").filter isGetCallEv).length = 5
    ∧ sleepSeconds (allFailTrace ".mp4") = [1, 2, 4, 8]
    ∧ (allFailTrace ".mp4").getLast? = some (.removeTemp (5, ".mp4")) :=
  c2_retry_schedule transientSpec (fun _ => .httpStatus 503) (fun _ _ _ => rfl)

/-- C3 (confirmed): for every fetch that ends in a terminal error, at most
one temporary file is on disk after each step of the trace, and no
temporary file remains on disk when the error propagates. -/
theorem c3_cleanup_on_failure (spec : FetchSpec) (e : FetchError)
    (herr : (download_to_temp_with_retries spec).2 = .error e) :
    diskRun [] (download_to_temp_with_retries spec).1 = true
    ∧ diskFold [] (download_to_temp_with_retries spec).1 = [] := by
  have hm := downloadLoop_disk spec.get spec.suffix [1, 2, 3, 4, 5]
  rw [download_eq] at herr ⊢
  exact ⟨hm.1, hm.2.1 e herr⟩

/-- C3, witness: the theorem applied to the 503-on-every-attempt fetch. -/
theorem c3_witness :
    diskRun [] (download_to_temp_with_retries transientSpec).1 = true
    ∧ diskFold [] (download_to_temp_with_retries transientSpec).1 = [] :=
  c3_cleanup_on_failure transientSpec
    (.downloadFailedAfterRetries (.httpStatus 503)) rfl

/-- C5 (confirmed): when the HEAD/quick-check fails, the fetch pipeline's
`try/except` turns the failure into an empty header set and the fetch
proceeds to the download attempts (it equals the retry loop's run). -/
theorem c5_probe_advisory (spec : FetchSpec) (m : String)
    (h : head_check spec.probe = .error m) :
    pipelineHeaders spec.probe = []
    ∧ download_to_temp_with_retries spec =
        downloadLoop spec.get spec.suffix [1, 2, 3, 4, 5] := by
  refine ⟨?_, download_eq spec⟩
  unfold pipelineHeaders
  rw [h]

/-- C5, witness: the theorem applied to a fetch whose HEAD times out. -/
theorem c5_witness :
    pipelineHeaders probeFailSpec.probe = []
    ∧ download_to_temp_with_retries probeFailSpec =
        downloadLoop probeFailSpec.get probeFailSpec.suffix [1, 2, 3, 4, 5] :=
  c5_probe_advisory probeFailSpec "HEAD/quick-check failed: timeout" rfl

/-- C10 (confirmed): every run of `download_to_temp_with_retries` returns or
raises from within the retry loop; the trailing
`unreachable_download_error` raise after the loop is never executed. -/
theorem c10_unreachable_never (spec : FetchSpec) :
    (download_to_temp_with_retries spec).2 ≠ .error .unreachableDownloadError := by
  rw [download_eq]
  exact downloadLoop_ends spec.get spec.suffix [1, 2, 3, 4]

set_option maxRecDepth 8192 in
/-- C4, counterexample.  For a 600-byte `text/html` body, the attempt fails
with the content-mismatch error whose diagnostic holds the first 512 bytes,
but the `bytesRead` recorded for the diagnostic is 600 — `await r.aread()`
reads the whole remaining body, not at most 512 bytes. -/
theorem c4_counterexample :
    tryStream (.resp 200 "text/html" htmlBody) =
      .error (.contentMismatch "text/html" (List.replicate 512 60) 600)
    ∧ ¬ (600 ≤ 512) := by
  have h1 : ¬ (400 ≤ 200) := by decide
  have h2 : ("text/html" : String) ≠ "" ∧ ctMatchesMedia "text/html" = false :=
    ⟨by decide, by decide⟩
  constructor
  · simp only [tryStream]
    rw [if_neg h1, if_pos h2]
    rw [show htmlBody.take 512 = List.replicate 512 60 from by
      simp [htmlBody, List.take_replicate]]
    rw [show htmlBody.length = 600 from by simp [htmlBody]]
  · decide

/-- C4 (amended): for a `2xx/3xx` response whose `content-type` is present
and matches none of the media markers, the attempt fails with the
content-mismatch error whose diagnostic payload is the first at-most-512
bytes of the body (`body.take 512`); the code reads the entire remaining
body for this diagnostic (`bytesRead = body.length`), truncating to 512
bytes only in the error message. -/
theorem c4_mismatch_diagnostic (status : Nat) (ct : String) (body : List Nat)
    (hstatus : status < 400) (hct : ct ≠ "")
    (hmedia : ctMatchesMedia ct = false) :
    tryStream (.resp status ct body) =
      .error (.contentMismatch ct (body.take 512) body.length)
    ∧ (body.take 512).length ≤ 512 := by
  constructor
  · simp only [tryStream]
    rw [if_neg (not_le.mpr hstatus), if_pos ⟨hct, hmedia⟩]
  · exact List.length_take_le 512 body

/-- C4, witness: the amended theorem applied to a 3-byte `text/html`
response. -/
theorem c4_witness :
    tryStream (.resp 200 "text/html" [60, 104, 116]) =
      .error (.contentMismatch "text/html" (([60, 104, 116] : List Nat).take 512)
        ([60, 104, 116] : List Nat).length)
    ∧ ((([60, 104, 116] : List Nat).take 512)).length ≤ 512 :=
  c4_mismatch_diagnostic 200 "text/html" [60, 104, 116]
    (by decide) (by decide) (by decide)

/-- C6 (confirmed): whenever the download succeeds, the upload handler's
trace is the download trace followed by the send call and the removal of
the downloaded file (the `finally` block), whatever the send outcome; no
temporary file remains on disk after the upload attempt. -/
theorem c6_upload_removes_file (req : UploadRequest) (probe : ProbeEnv)
    (get : Nat → GetResult) (menv : MessagingEnv) (path : TempPath)
    (h : (download_to_temp_with_retries (fetchSpecOf req probe get)).2 = .ok path) :
    (upload req probe get menv).1 =
      (download_to_temp_with_retries (fetchSpecOf req probe get)).1
        ++ [sendCallEv req path, .removeTemp path]
    ∧ diskFold [] (upload req probe get menv).1 = [] :=
  ⟨upload_trace_ok req probe get menv path h,
    upload_disk_ok req probe get menv path h⟩

/-- C6, witness: the theorem applied to a successful download whose send
call raises. -/
theorem c6_witness :
    (upload reqVideo okProbe okGet menvFail).1 =
      (download_to_temp_with_retries (fetchSpecOf reqVideo okProbe okGet)).1
        ++ [sendCallEv reqVideo (1, ".mp4"), .removeTemp (1, ".mp4")]
    ∧ diskFold [] (upload reqVideo okProbe okGet menvFail).1 = [] :=
  c6_upload_removes_file reqVideo okProbe okGet menvFail (1, ".mp4") (by decide)

/-- C7, counterexample.  For an invalid (`ftp://`) URL, POST /upload answers
with HTTP status 500, not the 400 the claim describes: the handler has no
400 path. -/
theorem c7_counterexample :
    specSchemeAccepted reqFtp.file_url = false
    ∧ (upload reqFtp probeFtp getFtp menvSent).2 =
        .httpError 500
          ("uploader_error: download_failed_after_retries: " ++ protoErrMsg) :=
  ⟨by decide, by decide⟩

/-- C7 (amended): POST /upload answers either `{ok: true, message_id: <id>}`
or an error payload with HTTP status 500 — every failure, including an
invalid URL, yields 500; and when the pipeline succeeds the returned
`message_id` is the identifier of the message created by the send call. -/
theorem c7_response_codes (req : UploadRequest) (probe : ProbeEnv)
    (get : Nat → GetResult) (menv : MessagingEnv) :
    ((∃ mid, (upload req probe get menv).2 = .okMessage mid)
      ∨ (∃ d, (upload req probe get menv).2 = .httpError 500 d))
    ∧ (∀ path mid,
        (download_to_temp_with_retries (fetchSpecOf req probe get)).2 = .ok path →
        sendOutcomeFor req menv = .sent mid →
        (upload req probe get menv).2 = .okMessage mid) := by
  cases hdl : download_to_temp_with_retries (fetchSpecOf req probe get) with
  | mk evs r =>
    cases r with
    | error e =>
      refine ⟨.inr ⟨"uploader_error: " ++ fetchErrorMsg e, ?_⟩,
        fun path mid hok _ => ?_⟩
      · simp [upload, hdl]
      · simp at hok
    | ok p =>
      cases hout : sendOutcomeFor req menv with
      | sent mid =>
        refine ⟨.inl ⟨mid, ?_⟩, fun path mid2 hok hsent => ?_⟩
        · simp [upload, hdl, hout]
        · simp only [SendOutcome.sent.injEq] at hsent
          subst hsent
          simp [upload, hdl, hout]
      | sendError m =>
        refine ⟨.inr ⟨"uploader_error: " ++ m, ?_⟩, fun path mid hok hsent => ?_⟩
        · simp [upload, hdl, hout]
        · simp at hsent

/-- C7, witness: the amended theorem applied to a fully successful
pipeline, whose response carries the send call's message id 42. -/
theorem c7_witness :
    ((∃ mid, (upload reqVideo okProbe okGet menvSent).2 = .okMessage mid)
      ∨ (∃ d, (upload reqVideo okProbe okGet menvSent).2 = .httpError 500 d))
    ∧ (upload reqVideo okProbe okGet menvSent).2 = .okMessage 42 := by
  have t := c7_response_codes reqVideo okProbe okGet menvSent
  exact ⟨t.1, t.2 (1, ".mp4") 42 (by decide) (by decide)⟩

/-- C8, counterexample.  `"MarkdownV2"` is neither `HTML` nor `Markdown`
(after normalization it is `"MARKDOWNV2"`), so under the claim it must map
to none; the code maps it to the Markdown mode, because it matches any tag
whose normalized form merely starts with `MARKDOWN`. -/
theorem c8_counterexample :
    claimParseModeMap (some "MarkdownV2") = none
    ∧ to_parse_mode_enum (some "MarkdownV2") = some ParseMode.MARKDOWN :=
  ⟨by decide, by decide⟩

/-- C8 (amended): `to_parse_mode_enum` maps a tag to the HTML mode exactly
when its normalized form (whitespace-stripped, quote-stripped, uppercased)
is `HTML`, to the Markdown mode exactly when its normalized form starts
with `MARKDOWN` (so `MarkdownV2` and similar tags also select Markdown),
and every other tag — unrecognized, malformed or empty — to none; the
function is total, so no input raises. -/
theorem c8_normalization (s : String) :
    to_parse_mode_enum none = none
    ∧ (to_parse_mode_enum (some s) = some ParseMode.HTML
        ↔ (s ≠ "" ∧ parseModeNormalize s = "HTML"))
    ∧ (to_parse_mode_enum (some s) = some ParseMode.MARKDOWN
        ↔ (s ≠ "" ∧ strStarts (parseModeNormalize s) "MARKDOWN" = true))
    ∧ (to_parse_mode_enum (some s) = none
        ↔ (s = "" ∨ (parseModeNormalize s ≠ "HTML"
            ∧ strStarts (parseModeNormalize s) "MARKDOWN" = false))) := by
  refine ⟨rfl, ?_, ?_, ?_⟩ <;>
    · simp only [to_parse_mode_enum]
      split_ifs with h1 h2 h3 <;> simp_all <;> decide

/-- C9, counterexample.  A present-but-empty `kind` is neither `"video"`
case-insensitively nor absent, so under the claim it must be treated as
photo (`.jpg`, `send_photo`); the code treats it as video: the temporary
file gets the `.mp4` suffix and `send_video` is called. -/
theorem c9_counterexample :
    claimSelectsVideo req9.kind = false
    ∧ suffixOf req9 = ".mp4"
    ∧ (upload req9 okProbe okGet menvSent).1 =
        [.createTemp (1, ".mp4"), .getCall, .sendVideoCall (1, ".mp4"),
          .removeTemp (1, ".mp4")]
    ∧ (upload req9 okProbe okGet menvSent).2 = .okMessage 42 :=
  ⟨by decide, by decide, by decide, by decide⟩

/-- C9 (amended): the video path (`.mp4` suffix, `send_video`) is selected
exactly when `kind` lowercases to `"video"` or is empty/absent (both
default to video); every other kind string selects the photo path
(`.jpg` suffix, `send_photo`). -/
theorem c9_kind_selection (req : UploadRequest) (probe : ProbeEnv)
    (get : Nat → GetResult) (menv : MessagingEnv) (path : TempPath)
    (h : (download_to_temp_with_retries (fetchSpecOf req probe get)).2 = .ok path) :
    (kindOf req = "video" ↔ (req.kind = "" ∨ toLowerStr req.kind = "video"))
    ∧ (kindOf req = "video" →
        suffixOf req = ".mp4"
        ∧ (upload req probe get menv).1 =
            (download_to_temp_with_retries (fetchSpecOf req probe get)).1
              ++ [Ev.sendVideoCall path, Ev.removeTemp path])
    ∧ (¬ kindOf req = "video" →
        suffixOf req = ".jpg"
        ∧ (upload req probe get menv).1 =
            (download_to_temp_with_retries (fetchSpecOf req probe get)).1
              ++ [Ev.sendPhotoCall path, Ev.removeTemp path]) := by
  have htr := upload_trace_ok req probe get menv path h
  refine ⟨?_, fun hv => ⟨?_, ?_⟩, fun hv => ⟨?_, ?_⟩⟩
  · unfold kindOf
    by_cases hk : req.kind = ""
    · rw [if_pos hk]
      exact ⟨fun _ => Or.inl hk, fun _ => by decide⟩
    · rw [if_neg hk]
      exact ⟨fun hlow => Or.inr hlow, fun hc => hc.elim (fun he => absurd he hk) id⟩
  · unfold suffixOf
    rw [if_pos hv]
  · rw [htr]
    unfold sendCallEv
    rw [if_pos hv]
  · unfold suffixOf
    rw [if_neg hv]
  · rw [htr]
    unfold sendCallEv
    rw [if_neg hv]

/-- C9, witness: the amended theorem applied to the empty-`kind` request,
which takes the video branch. -/
theorem c9_witness :
    (kindOf req9 = "video" ↔ (req9.kind = "" ∨ toLowerStr req9.kind = "video"))
    ∧ suffixOf req9 = ".mp4"
    ∧ (upload req9 okProbe okGet menvSent).1 =
        (download_to_temp_with_retries (fetchSpecOf req9 okProbe okGet)).1
          ++ [Ev.sendVideoCall (1, ".mp4"), Ev.removeTemp (1, ".mp4")] := by
  have t := c9_kind_selection req9 okProbe okGet menvSent (1, ".mp4") (by decide)
  exact ⟨t.1, (t.2.1 (by decide)).1, (t.2.1 (by decide)).2⟩
